import Mathlib

/-! Verification of the xmas-py light-animation controller.

Shallow embedding of src/animation.py, src/bridge.py and src/http_handler.py.
Randomness (random.randint, random.choice) is modelled by explicit entropy
parameters, network behaviour (aiohttp) by outcome oracles, and side effects
(log-file appends, console prints, HTTP requests, sleeps) by an explicit
event trace. -/

/-- A JSON scalar value as produced by json.load, at the granularity the
validator in src/animation.py distinguishes: Python ints, Python bools
(JSON true and false, which are instances of int in Python), non-integer
numbers (floats), strings and null. -/
inductive JVal where
  | jint (n : Int)
  | jbool (b : Bool)
  | jnum (q : ℚ)
  | jstr (s : String)
  | jnull
deriving DecidableEq

/-- Python isinstance(v, int) for a json.load value, together with the
integer used by later comparisons: bool is a subclass of int in Python,
with True counting as 1 and False as 0, so isinstance(True, int) holds. -/
def pyInt : JVal → Option Int
  | .jint n => some n
  | .jbool b => some (if b then 1 else 0)
  | _ => none

/-- One range object of the animation file: a JSON object whose "min" and
"max" entries may each be absent or hold an arbitrary JSON value. -/
structure JRange where
  min? : Option JVal
  max? : Option JVal
deriving DecidableEq

/-- The properties of one preset: a JSON object mapping keys such as
"speed", "hue", "bri", "sat" to range objects (association list, keys
unique as in a JSON object). -/
abbrev PresetProps : Type := List (String × JRange)

/-- A parsed animation file: a JSON object mapping preset names to their
properties, in file order. -/
abbrev AnimCfg : Type := List (String × PresetProps)

/-- The required_keys list of Animation.load_and_validate_animations. -/
def requiredKeys : List String := ["speed", "hue", "bri", "sat"]

/-- The per-key validation cascade of Animation.load_and_validate_animations
(src/animation.py): for each required key in order, the key must be present,
its range must carry both min and max, both must satisfy isinstance(-, int),
and min must not exceed max; the first violation raises. -/
def validateKeys : List String → PresetProps → Except String Unit
  | [], _ => .ok ()
  | k :: ks, props =>
    match props.lookup k with
    | none => .error ("Missing key " ++ k)
    | some r =>
      match r.min?, r.max? with
      | some mn, some mx =>
        match pyInt mn, pyInt mx with
        | some a, some b =>
          if a > b then .error ("min must be less than max for " ++ k)
          else validateKeys ks props
        | _, _ => .error ("min and max must be integers for " ++ k)
      | _, _ => .error ("Missing min or max for " ++ k)

/-- The outer loop of Animation.load_and_validate_animations over
data.items(): every preset must pass the per-key validation. -/
def validatePresets : AnimCfg → Except String Unit
  | [] => .ok ()
  | (_, props) :: rest =>
    match validateKeys requiredKeys props with
    | .ok _ => validatePresets rest
    | .error e => .error e

/-- Animation.load_and_validate_animations (src/animation.py), after the
file has been read and parsed: validates every preset and returns the
parsed data unchanged, or raises on the first violation. -/
def load_and_validate_animations (data : AnimCfg) : Except String AnimCfg :=
  match validatePresets data with
  | .ok _ => .ok data
  | .error e => .error e

/-- One required key of one preset is rejected by the validator, with
Python's bool-is-int semantics: key absent, min or max absent, min or max
not an int (nor a bool), or min greater than max. -/
def rangeBad (r : JRange) : Bool :=
  match r.min?, r.max? with
  | some mn, some mx =>
    match pyInt mn, pyInt mx with
    | some a, some b => a > b
    | _, _ => true
  | _, _ => true

/-- One required key of the preset is missing or has a bad range. -/
def keyBad (props : PresetProps) (k : String) : Bool :=
  match props.lookup k with
  | none => true
  | some r => rangeBad r

/-- Some required key of the preset is missing or has a bad range. -/
def presetBad (props : PresetProps) : Bool :=
  requiredKeys.any (keyBad props)

/-- Some preset of the parsed file fails validation. -/
def configBad (data : AnimCfg) : Bool :=
  data.any fun p => presetBad p.2

/-- The failure condition exactly as the specification words it: "min or
max is not an integer" read strictly over JSON values, so that JSON
booleans do not count as integers. Stated from the spec for comparison
with the behaviour of load_and_validate_animations. -/
def specRangeBad (r : JRange) : Bool :=
  match r.min?, r.max? with
  | some (JVal.jint a), some (JVal.jint b) => a > b
  | _, _ => true

/-- Spec-worded preset failure condition, strict about integers. -/
def specPresetBad (props : PresetProps) : Bool :=
  requiredKeys.any fun k =>
    match props.lookup k with
    | none => true
    | some r => specRangeBad r

/-- Spec-worded config failure condition, strict about integers. -/
def specConfigBad (data : AnimCfg) : Bool :=
  data.any fun p => specPresetBad p.2

/-- random.randint(a, b) of src/animation.py, modelled on its valid domain
a ≤ b: the entropy r selects one of the b - a + 1 values of the inclusive
interval. -/
def randint (a b : Int) (r : Nat) : Int :=
  a + ((r % (b - a + 1).toNat : Nat) : Int)

/-- random.choice over a list, modelled with an entropy index; fails on an
empty list (IndexError in Python). -/
def choice (xs : List α) (r : Nat) : Option α :=
  xs.get? (r % xs.length)

/-- int(os.getenv('MIN_DURATION', 20)) of Animation.__init__: the
environment value when set, else the default 20. -/
def minimum_duration (env : Option Int) : Int := env.getD 20

/-- int(os.getenv('MAX_DURATION', 200)) of Animation.__init__: the
environment value when set, else the default 200. -/
def maximum_duration (env : Option Int) : Int := env.getD 200

theorem randint_mem (a b : Int) (h : a ≤ b) (r : Nat) :
    a ≤ randint a b r ∧ randint a b r ≤ b := by
  unfold randint
  have hn : ((b - a + 1).toNat : Int) = b - a + 1 := Int.toNat_of_nonneg (by omega)
  have hpos : 0 < (b - a + 1).toNat := by omega
  have hlt : r % (b - a + 1).toNat < (b - a + 1).toNat := Nat.mod_lt r hpos
  omega

theorem randint_same (k : Int) (r : Nat) : randint k k r = k := by
  unfold randint
  have h1 : k - k + 1 = 1 := by omega
  rw [h1]
  simp

theorem randint_surjOn (a b v : Int) (h : a ≤ b) (hv : a ≤ v ∧ v ≤ b) :
    ∃ r, r < (b - a + 1).toNat ∧ randint a b r = v := by
  refine ⟨(v - a).toNat, by omega, ?_⟩
  unfold randint
  have h1 : (v - a).toNat < (b - a + 1).toNat := by omega
  rw [Nat.mod_eq_of_lt h1]
  omega

theorem randint_injOn (a b : Int) (r1 r2 : Nat)
    (h1 : r1 < (b - a + 1).toNat) (h2 : r2 < (b - a + 1).toNat)
    (heq : randint a b r1 = randint a b r2) : r1 = r2 := by
  unfold randint at heq
  rw [Nat.mod_eq_of_lt h1, Nat.mod_eq_of_lt h2] at heq
  omega

theorem validateKeys_ok_iff (ks : List String) (props : PresetProps) :
    validateKeys ks props = .ok () ↔ ks.any (keyBad props) = false := by
  induction ks with
  | nil => simp [validateKeys]
  | cons k ks ih =>
    rw [List.any_cons]
    cases hlk : props.lookup k with
    | none => simp [validateKeys, hlk, keyBad]
    | some r =>
      cases hmn : r.min? with
      | none => simp [validateKeys, hlk, hmn, keyBad, rangeBad]
      | some mn =>
        cases hmx : r.max? with
        | none => simp [validateKeys, hlk, hmn, hmx, keyBad, rangeBad]
        | some mx =>
          cases hpa : pyInt mn with
          | none => simp [validateKeys, hlk, hmn, hmx, hpa, keyBad, rangeBad]
          | some a =>
            cases hpb : pyInt mx with
            | none => simp [validateKeys, hlk, hmn, hmx, hpa, hpb, keyBad, rangeBad]
            | some b =>
              by_cases hab : a > b
              · simp [validateKeys, hlk, hmn, hmx, hpa, hpb, hab, keyBad, rangeBad]
              · simp [validateKeys, hlk, hmn, hmx, hpa, hpb, hab, keyBad, rangeBad, ih]

theorem validatePresets_ok_iff (data : AnimCfg) :
    validatePresets data = .ok () ↔ configBad data = false := by
  induction data with
  | nil => simp [validatePresets, configBad]
  | cons p rest ih =>
    obtain ⟨nm, props⟩ := p
    rw [show configBad ((nm, props) :: rest) = (presetBad props || configBad rest) from by
      simp [configBad]]
    cases hv : validateKeys requiredKeys props with
    | ok u =>
      obtain ⟨⟩ := u
      have hp : presetBad props = false := (validateKeys_ok_iff requiredKeys props).mp hv
      simp [validatePresets, hv, hp, ih]
    | error e =>
      have hp : presetBad props = true := by
        by_contra h
        have hfalse : presetBad props = false := by
          cases hb : presetBad props
          · rfl
          · exact absurd hb h
        have := (validateKeys_ok_iff requiredKeys props).mpr hfalse
        rw [hv] at this
        exact Except.noConfusion this
      simp [validatePresets, hv, hp]

/-- Claim C3 (amended): load_and_validate_animations raises, returning no
preset set, exactly when some preset is missing a required range key, or a
range is missing min or max, or min or max is not an integer in Python's
sense (booleans count as integers), or min exceeds max; otherwise it
returns the full parsed mapping unchanged. -/
theorem load_animations_validates (data : AnimCfg) :
    (load_and_validate_animations data).toOption =
      if configBad data = true then none else some data := by
  unfold load_and_validate_animations
  cases hv : validatePresets data with
  | ok u =>
    obtain ⟨⟩ := u
    have hc := (validatePresets_ok_iff data).mp hv
    simp [hc, Except.toOption]
  | error e =>
    have hc : configBad data = true := by
      cases hb : configBad data
      · have := (validatePresets_ok_iff data).mpr hb
        rw [hv] at this
        exact Except.noConfusion this
      · rfl
    simp [hc, Except.toOption]

/-- A preset file whose speed range holds JSON booleans: not integers in
the JSON sense, yet accepted because Python's isinstance(True, int) holds. -/
def cfgBoolSpeed : AnimCfg :=
  [("candle",
    [("speed", ⟨some (JVal.jbool true), some (JVal.jbool true)⟩),
     ("hue", ⟨some (JVal.jint 0), some (JVal.jint 0)⟩),
     ("bri", ⟨some (JVal.jint 0), some (JVal.jint 0)⟩),
     ("sat", ⟨some (JVal.jint 0), some (JVal.jint 0)⟩)])]

/-- Claim C3 (counterexample): a preset whose speed min and max are JSON
booleans falls under the claim's "min or max is not an integer" condition,
yet loading succeeds and returns the mapping, because Python treats bool
as a subclass of int. -/
theorem load_animations_accepts_bools :
    specConfigBad cfgBoolSpeed = true ∧
    load_and_validate_animations cfgBoolSpeed = Except.ok cfgBoolSpeed := by
  constructor
  · decide
  · rfl

/-- The example preset file of the specification, used as concrete input. -/
def cfgPulse : AnimCfg :=
  [("pulse",
    [("speed", ⟨some (JVal.jint 50), some (JVal.jint 50)⟩),
     ("hue", ⟨some (JVal.jint 0), some (JVal.jint 100)⟩),
     ("bri", ⟨some (JVal.jint 100), some (JVal.jint 150)⟩),
     ("sat", ⟨some (JVal.jint 200), some (JVal.jint 254)⟩)])]

/-- Claim C9 (counterexample): loading a configuration file containing zero
presets succeeds and returns the empty mapping, so a successful load can
produce an empty animation set. -/
theorem load_animations_empty_ok :
    load_and_validate_animations ([] : AnimCfg) = Except.ok [] := by
  rfl

/-- Claim C9 (amended): a successful preset load returns exactly the parsed
mapping, which is empty when the file holds zero presets: non-emptiness is
not enforced by loading. -/
theorem load_animations_returns_input :
    load_and_validate_animations ([] : AnimCfg) = Except.ok [] ∧
    ∀ data res : AnimCfg,
      load_and_validate_animations data = Except.ok res → res = data := by
  constructor
  · rfl
  · intro data res h
    unfold load_and_validate_animations at h
    cases hv : validatePresets data with
    | ok u => rw [hv] at h; exact (Except.ok.injEq _ _).mp h.symm
    | error e => rw [hv] at h; exact Except.noConfusion h

theorem load_animations_returns_input_witness :
    load_and_validate_animations cfgPulse = Except.ok cfgPulse ∧
    cfgPulse = cfgPulse :=
  ⟨by rfl, load_animations_returns_input.2 cfgPulse cfgPulse (by rfl)⟩

/-- A Python value at the depth the transport layer inspects: JSON scalars
plus one level of nested object, enough to distinguish a flat dict from a
dict holding a nested mapping. -/
inductive PVal where
  | pnum (q : ℚ)
  | pbool (b : Bool)
  | pstr (s : String)
  | pnone
  | pobj (kvs : List (String × ℚ))
deriving DecidableEq

/-- A PUT payload or decoded JSON response body: either a Python dict
(association list) or some non-dict value. -/
inductive Payload where
  | pdict (kvs : List (String × PVal))
  | pother
deriving DecidableEq

/-- Observable actions of the program: a log-file append, an issued PUT
request, a console print, or an asyncio.sleep. -/
inductive Event where
  | logged (file : String) (msg : String)
  | putSent (url : String) (body : Payload)
  | printed (msg : String)
  | slept (seconds : ℚ)
deriving DecidableEq

/-- The log file of Bridge.log_error (src/bridge.py). -/
def bridgeLogFile : String := "bridge_error_log.txt"

/-- The default log file of Http.log_error (src/http_handler.py). -/
def httpLogFile : String := "http_error_log.txt"

/-- The log file of Animation.log_error (src/animation.py). -/
def animLogFile : String := "error_log.txt"

/-- Outcome of one network interaction as seen by Http.put: a decoded JSON
response, an aiohttp.ClientError, or a JSON decode failure of the body. -/
inductive NetOutcome where
  | ok (resp : Payload)
  | clientError
  | decodeFailure
deriving DecidableEq

/-- The failure kinds of the transport layer (src/http_handler.py). -/
inductive HttpErr where
  | invalidURL
  | invalidPayload
  | requestFailed
  | decodeError
deriving DecidableEq

/-- Python str.startswith: the first len(p) characters equal p. -/
def str_starts_with (s p : String) : Bool :=
  s.data.take p.data.length == p.data

/-- Http.validate_url (src/http_handler.py): the URL must start with
http:// or https://. -/
def validate_url (url : String) : Bool :=
  str_starts_with url "http://" || str_starts_with url "https://"

/-- Http.validate_payload (src/http_handler.py): the data must be a dict
and non-empty; nothing else about the dict is inspected. -/
def validate_payload : Payload → Bool
  | .pdict [] => false
  | .pdict (_ :: _) => true
  | .pother => false

/-- An acceptable PUT body as the specification words it: a non-empty flat
key-value mapping, every value a scalar. Stated from the spec for
comparison with validate_payload. -/
def flat_kv_mapping : Payload → Bool
  | .pdict kvs =>
      (kvs.isEmpty == false) && kvs.all fun kv =>
        match kv.2 with
        | .pobj _ => false
        | _ => true
  | .pother => false

/-- Http.put (src/http_handler.py): validates the URL, then the payload,
then issues the PUT; a ClientError or an undecodable JSON response is
logged and raised. Validation failures are logged and raise without any
request being issued. -/
def Http.put (url : String) (data : Payload) (net : NetOutcome) :
    List Event × Except HttpErr Payload :=
  if validate_url url = false then
    ([.logged httpLogFile ("Invalid URL: " ++ url)], .error .invalidURL)
  else if validate_payload data = false then
    ([.logged httpLogFile "Invalid payload for PUT request"], .error .invalidPayload)
  else
    match net with
    | .ok resp => ([.putSent url data], .ok resp)
    | .clientError =>
        ([.putSent url data,
          .logged httpLogFile ("PUT request failed for URL " ++ url)],
         .error .requestFailed)
    | .decodeFailure =>
        ([.putSent url data,
          .logged httpLogFile ("Invalid JSON response for PUT request to " ++ url)],
         .error .decodeError)

/-- The event is a network request. -/
def isRequest : Event → Bool
  | .putSent _ _ => true
  | _ => false

/-- The network requests contained in a trace. -/
def requestsOf (evs : List Event) : List Event := evs.filter isRequest

theorem take_length_append (l1 l2 : List Char) : (l1 ++ l2).take l1.length = l1 := by
  induction l1 with
  | nil => simp
  | cons a l ih => simp [ih]

theorem string_data_append (a b : String) : (a ++ b).data = a.data ++ b.data := by
  cases a
  cases b
  rfl

theorem str_starts_with_append (p s : String) : str_starts_with (p ++ s) p = true := by
  unfold str_starts_with
  rw [string_data_append, take_length_append]
  simp

theorem Http.put_ok (url : String) (data : Payload) (resp : Payload)
    (hu : validate_url url = true) (hp : validate_payload data = true) :
    Http.put url data (NetOutcome.ok resp) = ([Event.putSent url data], Except.ok resp) := by
  simp [Http.put, hu, hp]

/-- A non-empty dict whose single value is itself a mapping: a dict, but
not a flat one. -/
def nestedBody : Payload := Payload.pdict [("a", PVal.pobj [("b", 1)])]

/-- A generic successful JSON response used as a concrete network outcome. -/
def resp0 : Payload := Payload.pdict [("success", PVal.pnum 1)]

/-- Claim C8 (counterexample): a non-empty dict holding a nested mapping is
not a flat key-value mapping, yet Http.put accepts it and issues the
request, because validate_payload only checks for a non-empty dict. -/
theorem put_accepts_nested_payload :
    flat_kv_mapping nestedBody = false ∧
    Http.put "http://bridge/x" nestedBody (NetOutcome.ok resp0)
      = ([Event.putSent "http://bridge/x" nestedBody], Except.ok resp0) := by
  constructor
  · decide
  · rfl

/-- Claim C8 (amended): Http.put raises an invalid-URL error when the URL
does not start with http:// or https://, and, for a valid URL, raises an
invalid-payload error when the body is empty or not a key-value mapping
(flatness of the mapping's values is not inspected); in either
validation-failure case the error is logged and no request is issued. -/
theorem put_validates_url_and_payload (url : String) (data : Payload) (net : NetOutcome) :
    (validate_url url = false →
       Http.put url data net
         = ([Event.logged httpLogFile ("Invalid URL: " ++ url)],
            Except.error HttpErr.invalidURL) ∧
       requestsOf (Http.put url data net).1 = []) ∧
    (validate_url url = true → validate_payload data = false →
       Http.put url data net
         = ([Event.logged httpLogFile "Invalid payload for PUT request"],
            Except.error HttpErr.invalidPayload) ∧
       requestsOf (Http.put url data net).1 = []) ∧
    (validate_url url = true → validate_payload data = true →
       Event.putSent url data ∈ (Http.put url data net).1) := by
  refine ⟨?_, ?_, ?_⟩
  · intro h
    have heq : Http.put url data net
        = ([Event.logged httpLogFile ("Invalid URL: " ++ url)],
           Except.error HttpErr.invalidURL) := by
      simp [Http.put, h]
    exact ⟨heq, by rw [heq]; rfl⟩
  · intro h1 h2
    have heq : Http.put url data net
        = ([Event.logged httpLogFile "Invalid payload for PUT request"],
           Except.error HttpErr.invalidPayload) := by
      simp [Http.put, h1, h2]
    exact ⟨heq, by rw [heq]; rfl⟩
  · intro h1 h2
    cases net <;> simp [Http.put, h1, h2]

theorem put_validates_url_and_payload_witness :
    validate_url "ftp://bridge" = false ∧
    Http.put "ftp://bridge" nestedBody NetOutcome.clientError
      = ([Event.logged httpLogFile ("Invalid URL: " ++ "ftp://bridge")],
         Except.error HttpErr.invalidURL) ∧
    validate_url "http://bridge/x" = true ∧
    validate_payload Payload.pother = false ∧
    Http.put "http://bridge/x" Payload.pother NetOutcome.clientError
      = ([Event.logged httpLogFile "Invalid payload for PUT request"],
         Except.error HttpErr.invalidPayload) ∧
    validate_payload nestedBody = true ∧
    Event.putSent "http://bridge/x" nestedBody
      ∈ (Http.put "http://bridge/x" nestedBody NetOutcome.clientError).1 :=
  ⟨by decide,
   ((put_validates_url_and_payload "ftp://bridge" nestedBody NetOutcome.clientError).1
     (by decide)).1,
   by decide, by decide,
   ((put_validates_url_and_payload "http://bridge/x" Payload.pother NetOutcome.clientError).2.1
     (by decide) (by decide)).1,
   by decide,
   (put_validates_url_and_payload "http://bridge/x" nestedBody NetOutcome.clientError).2.2
     (by decide) (by decide)⟩

/-- The bridge address and token held by a Bridge instance (src/bridge.py). -/
structure BridgeCfg where
  ip : String
  token : String
deriving DecidableEq

/-- The failure kinds of the device gateway (src/bridge.py). -/
inductive BridgeErr where
  | invalidLightId
  | invalidHue
  | invalidBrightness
  | invalidSaturation
  | transport (e : HttpErr)
deriving DecidableEq

/-- Bridge.validate_light_id (src/bridge.py): the light id, a string by
typing, must be non-empty (Python truthiness of str). -/
def validate_light_id (lightId : String) : Bool := lightId != ""

/-- Bridge.get_url (src/bridge.py): the per-light state endpoint. -/
def get_url (bc : BridgeCfg) (lightId : String) : String :=
  "http://" ++ (bc.ip ++ "/api/" ++ bc.token ++ "/lights/" ++ lightId ++ "/state")

/-- Hue in [0, 65535], brightness and saturation in [0, 254]. -/
abbrev colorInRange (hue bri sat : ℚ) : Prop :=
  (0 ≤ hue ∧ hue ≤ 65535) ∧ (0 ≤ bri ∧ bri ≤ 254) ∧ (0 ≤ sat ∧ sat ≤ 254)

/-- Bridge.validate_color_values (src/bridge.py): hue must lie in
[0, 65535], brightness and saturation in [0, 254]; the first violation is
logged and raised. The source tests the negation of each bound pair; only
magnitudes are compared, never integrality. -/
def validate_color_values (hue bri sat : ℚ) : List Event × Option BridgeErr :=
  if 0 ≤ hue ∧ hue ≤ 65535 then
    if 0 ≤ bri ∧ bri ≤ 254 then
      if 0 ≤ sat ∧ sat ≤ 254 then ([], none)
      else ([.logged bridgeLogFile "Invalid saturation value"], some .invalidSaturation)
    else ([.logged bridgeLogFile "Invalid brightness value"], some .invalidBrightness)
  else ([.logged bridgeLogFile "Invalid hue value"], some .invalidHue)

/-- The PUT body of Bridge.set_light_color, literally the dict
with keys hue, bri, sat in that order. -/
def colorBody (hue bri sat : ℚ) : Payload :=
  Payload.pdict [("hue", PVal.pnum hue), ("bri", PVal.pnum bri), ("sat", PVal.pnum sat)]

/-- Bridge.set_light_color (src/bridge.py): validates the color values
first, raising without touching the transport on a violation; then, inside
the try block, validates the light id while building the URL and issues
the PUT via Http.put; failures there are logged and re-raised. -/
def set_light_color (bc : BridgeCfg) (lightId : String) (hue bri sat : ℚ)
    (net : NetOutcome) : List Event × Except BridgeErr Payload :=
  match validate_color_values hue bri sat with
  | (evs, some e) => (evs, .error e)
  | (_, none) =>
    if validate_light_id lightId then
      match Http.put (get_url bc lightId) (colorBody hue bri sat) net with
      | (evs, .ok resp) => (evs, .ok resp)
      | (evs, .error e) =>
          (evs ++ [.logged bridgeLogFile ("Failed to set light color for " ++ lightId)],
           .error (.transport e))
    else
      ([.logged bridgeLogFile ("Invalid light ID: " ++ lightId),
        .logged bridgeLogFile ("Failed to set light color for " ++ lightId)],
       .error .invalidLightId)

/-- Bridge.turn_on_light (src/bridge.py): validates the light id while
building the URL, then issues the PUT with body on: true; failures are
logged and re-raised. -/
def turn_on_light (bc : BridgeCfg) (lightId : String) (net : NetOutcome) :
    List Event × Except BridgeErr Payload :=
  if validate_light_id lightId then
    match Http.put (get_url bc lightId) (Payload.pdict [("on", PVal.pbool true)]) net with
    | (evs, .ok resp) => (evs, .ok resp)
    | (evs, .error e) =>
        (evs ++ [.logged bridgeLogFile ("Failed to turn on light " ++ lightId)],
         .error (.transport e))
  else
    ([.logged bridgeLogFile ("Invalid light ID: " ++ lightId),
      .logged bridgeLogFile ("Failed to turn on light " ++ lightId)],
     .error .invalidLightId)

theorem validate_url_get_url (bc : BridgeCfg) (lightId : String) :
    validate_url (get_url bc lightId) = true := by
  unfold get_url validate_url
  rw [str_starts_with_append]
  simp

theorem validate_color_values_ok (hue bri sat : ℚ) (h : colorInRange hue bri sat) :
    validate_color_values hue bri sat = ([], none) := by
  unfold validate_color_values
  rw [if_pos h.1, if_pos h.2.1, if_pos h.2.2]

theorem validate_color_values_fail (hue bri sat : ℚ) (h : ¬ colorInRange hue bri sat) :
    ∃ m e, validate_color_values hue bri sat = ([Event.logged bridgeLogFile m], some e) ∧
      (e = BridgeErr.invalidHue ∨ e = BridgeErr.invalidBrightness ∨
        e = BridgeErr.invalidSaturation) := by
  unfold validate_color_values
  by_cases h1 : 0 ≤ hue ∧ hue ≤ 65535
  · by_cases h2 : 0 ≤ bri ∧ bri ≤ 254
    · by_cases h3 : 0 ≤ sat ∧ sat ≤ 254
      · exact absurd ⟨h1, h2, h3⟩ h
      · exact ⟨_, _, by rw [if_pos h1, if_pos h2, if_neg h3], Or.inr (Or.inr rfl)⟩
    · exact ⟨_, _, by rw [if_pos h1, if_neg h2], Or.inr (Or.inl rfl)⟩
  · exact ⟨_, _, by rw [if_neg h1], Or.inl rfl⟩

theorem set_light_color_ok (bc : BridgeCfg) (lightId : String) (hue bri sat : ℚ)
    (resp : Payload) (hr : colorInRange hue bri sat)
    (hid : validate_light_id lightId = true) :
    set_light_color bc lightId hue bri sat (NetOutcome.ok resp)
      = ([Event.putSent (get_url bc lightId) (colorBody hue bri sat)], Except.ok resp) := by
  have hput := Http.put_ok (get_url bc lightId) (colorBody hue bri sat) resp
    (validate_url_get_url bc lightId) rfl
  simp [set_light_color, validate_color_values_ok hue bri sat hr, hid, hput]

theorem set_light_color_clientError (bc : BridgeCfg) (lightId : String) (hue bri sat : ℚ)
    (hr : colorInRange hue bri sat) (hid : validate_light_id lightId = true) :
    set_light_color bc lightId hue bri sat NetOutcome.clientError
      = ([Event.putSent (get_url bc lightId) (colorBody hue bri sat),
          Event.logged httpLogFile ("PUT request failed for URL " ++ get_url bc lightId),
          Event.logged bridgeLogFile ("Failed to set light color for " ++ lightId)],
         Except.error (BridgeErr.transport HttpErr.requestFailed)) := by
  have hput : Http.put (get_url bc lightId) (colorBody hue bri sat) NetOutcome.clientError
      = ([Event.putSent (get_url bc lightId) (colorBody hue bri sat),
          Event.logged httpLogFile ("PUT request failed for URL " ++ get_url bc lightId)],
         Except.error HttpErr.requestFailed) := by
    simp [Http.put, validate_url_get_url bc lightId]
    rfl
  simp [set_light_color, validate_color_values_ok hue bri sat hr, hid, hput]

theorem set_light_color_decodeFailure (bc : BridgeCfg) (lightId : String) (hue bri sat : ℚ)
    (hr : colorInRange hue bri sat) (hid : validate_light_id lightId = true) :
    set_light_color bc lightId hue bri sat NetOutcome.decodeFailure
      = ([Event.putSent (get_url bc lightId) (colorBody hue bri sat),
          Event.logged httpLogFile
            ("Invalid JSON response for PUT request to " ++ get_url bc lightId),
          Event.logged bridgeLogFile ("Failed to set light color for " ++ lightId)],
         Except.error (BridgeErr.transport HttpErr.decodeError)) := by
  have hput : Http.put (get_url bc lightId) (colorBody hue bri sat) NetOutcome.decodeFailure
      = ([Event.putSent (get_url bc lightId) (colorBody hue bri sat),
          Event.logged httpLogFile
            ("Invalid JSON response for PUT request to " ++ get_url bc lightId)],
         Except.error HttpErr.decodeError) := by
    simp [Http.put, validate_url_get_url bc lightId]
    rfl
  simp [set_light_color, validate_color_values_ok hue bri sat hr, hid, hput]

theorem set_light_color_sends (bc : BridgeCfg) (lightId : String) (hue bri sat : ℚ)
    (net : NetOutcome) (hr : colorInRange hue bri sat)
    (hid : validate_light_id lightId = true) :
    Event.putSent (get_url bc lightId) (colorBody hue bri sat)
      ∈ (set_light_color bc lightId hue bri sat net).1 := by
  cases net with
  | ok resp => rw [set_light_color_ok bc lightId hue bri sat resp hr hid]; simp
  | clientError => rw [set_light_color_clientError bc lightId hue bri sat hr hid]; simp
  | decodeFailure => rw [set_light_color_decodeFailure bc lightId hue bri sat hr hid]; simp

/-- A concrete bridge configuration for witnesses. -/
def bridge0 : BridgeCfg := ⟨"192.168.1.2", "token"⟩

/-- Claim C4: a set_light_color call with hue outside [0, 65535] or
brightness or saturation outside [0, 254] raises a color-validation error
and logs it, and no network request is issued; with all three values in
range (and a valid light id) it issues a PUT whose body is exactly the
hue, bri, sat mapping. -/
theorem set_light_color_validates_first (bc : BridgeCfg) (lightId : String)
    (hue bri sat : ℚ) (net : NetOutcome) :
    (¬ colorInRange hue bri sat →
       requestsOf (set_light_color bc lightId hue bri sat net).1 = [] ∧
       (∃ m, Event.logged bridgeLogFile m ∈ (set_light_color bc lightId hue bri sat net).1) ∧
       (∃ e, (set_light_color bc lightId hue bri sat net).2 = Except.error e ∧
          (e = BridgeErr.invalidHue ∨ e = BridgeErr.invalidBrightness ∨
            e = BridgeErr.invalidSaturation))) ∧
    (colorInRange hue bri sat → validate_light_id lightId = true →
       Event.putSent (get_url bc lightId) (colorBody hue bri sat)
         ∈ (set_light_color bc lightId hue bri sat net).1) := by
  constructor
  · intro h
    obtain ⟨m, e, heq, he⟩ := validate_color_values_fail hue bri sat h
    have hcall : set_light_color bc lightId hue bri sat net
        = ([Event.logged bridgeLogFile m], Except.error e) := by
      simp [set_light_color, heq]
    rw [hcall]
    exact ⟨rfl, ⟨m, by simp⟩, ⟨e, rfl, he⟩⟩
  · intro h1 h2
    exact set_light_color_sends bc lightId hue bri sat net h1 h2

theorem set_light_color_validates_first_witness :
    (¬ colorInRange 70000 10 10) ∧
    requestsOf (set_light_color bridge0 "1" 70000 10 10 NetOutcome.clientError).1 = [] ∧
    colorInRange 100 100 100 ∧
    validate_light_id "1" = true ∧
    Event.putSent (get_url bridge0 "1") (colorBody 100 100 100)
      ∈ (set_light_color bridge0 "1" 100 100 100 NetOutcome.clientError).1 :=
  ⟨by decide,
   ((set_light_color_validates_first bridge0 "1" 70000 10 10 NetOutcome.clientError).1
     (by decide)).1,
   by decide, by decide,
   (set_light_color_validates_first bridge0 "1" 100 100 100 NetOutcome.clientError).2
     (by decide) (by decide)⟩

/-- The rational one half, written with explicit numerator and denominator
so that it computes by kernel reduction. -/
def halfQ : ℚ := ⟨1, 2, by decide, Nat.coprime_one_left 2⟩

/-- Claim C10: color validation checks only magnitudes, not integrality:
non-integer rational values inside the ranges pass validation, and the PUT
is issued carrying exactly those non-integer values; the call can only
fail further down in the transport. -/
theorem set_light_color_ignores_integrality (bc : BridgeCfg) (lightId : String)
    (hue bri sat : ℚ) (net : NetOutcome)
    (_hni : hue.den ≠ 1 ∨ bri.den ≠ 1 ∨ sat.den ≠ 1)
    (hr : colorInRange hue bri sat) (hid : validate_light_id lightId = true) :
    (validate_color_values hue bri sat).2 = none ∧
    Event.putSent (get_url bc lightId) (colorBody hue bri sat)
      ∈ (set_light_color bc lightId hue bri sat net).1 ∧
    ∀ e, (set_light_color bc lightId hue bri sat net).2 = Except.error e →
      ∃ he, e = BridgeErr.transport he := by
  refine ⟨by rw [validate_color_values_ok hue bri sat hr],
    set_light_color_sends bc lightId hue bri sat net hr hid, ?_⟩
  intro e he
  cases net with
  | ok resp =>
    rw [set_light_color_ok bc lightId hue bri sat resp hr hid] at he
    exact Except.noConfusion he
  | clientError =>
    rw [set_light_color_clientError bc lightId hue bri sat hr hid] at he
    exact ⟨HttpErr.requestFailed, ((Except.error.injEq _ _).mp he).symm⟩
  | decodeFailure =>
    rw [set_light_color_decodeFailure bc lightId hue bri sat hr hid] at he
    exact ⟨HttpErr.decodeError, ((Except.error.injEq _ _).mp he).symm⟩

theorem set_light_color_ignores_integrality_witness :
    (halfQ.den ≠ 1 ∨ halfQ.den ≠ 1 ∨ halfQ.den ≠ 1) ∧
    colorInRange halfQ halfQ halfQ ∧
    validate_light_id "1" = true ∧
    Event.putSent (get_url bridge0 "1") (colorBody halfQ halfQ halfQ)
      ∈ (set_light_color bridge0 "1" halfQ halfQ halfQ (NetOutcome.ok resp0)).1 :=
  ⟨by decide, by decide, by decide,
   (set_light_color_ignores_integrality bridge0 "1" halfQ halfQ halfQ
     (NetOutcome.ok resp0) (by decide) (by decide) (by decide)).2.1⟩

/-- An integer range with min and max, as stored under one key of a
validated preset. -/
structure RangeI where
  min : Int
  max : Int
deriving DecidableEq

/-- A validated animation preset: the four required ranges read through
config['speed'], config['hue'], config['bri'], config['sat']. -/
structure Preset where
  speed : RangeI
  hue : RangeI
  bri : RangeI
  sat : RangeI
deriving DecidableEq

/-- The transient light state built each tick per light. -/
structure LightState where
  hue : Int
  bri : Int
  sat : Int
deriving DecidableEq

/-- Animation.generate_random_state (src/animation.py): one independent
randint draw per component, from the preset's hue, bri and sat ranges;
the three entropy arguments stand for the three successive draws. -/
def generate_random_state (config : Preset) (r1 r2 r3 : Nat) : LightState :=
  { hue := randint config.hue.min config.hue.max r1
    bri := randint config.bri.min config.bri.max r2
    sat := randint config.sat.min config.sat.max r3 }

/-- Claim C2: whenever the preset's hue, bri and sat ranges each satisfy
min ≤ max, generate_random_state returns a state whose components lie in
the respective inclusive ranges. -/
theorem generate_random_state_in_range (config : Preset) (r1 r2 r3 : Nat)
    (h1 : config.hue.min ≤ config.hue.max)
    (h2 : config.bri.min ≤ config.bri.max)
    (h3 : config.sat.min ≤ config.sat.max) :
    (config.hue.min ≤ (generate_random_state config r1 r2 r3).hue ∧
      (generate_random_state config r1 r2 r3).hue ≤ config.hue.max) ∧
    (config.bri.min ≤ (generate_random_state config r1 r2 r3).bri ∧
      (generate_random_state config r1 r2 r3).bri ≤ config.bri.max) ∧
    (config.sat.min ≤ (generate_random_state config r1 r2 r3).sat ∧
      (generate_random_state config r1 r2 r3).sat ≤ config.sat.max) :=
  ⟨randint_mem config.hue.min config.hue.max h1 r1,
   randint_mem config.bri.min config.bri.max h2 r2,
   randint_mem config.sat.min config.sat.max h3 r3⟩

/-- The specification's example preset, in validated form. -/
def preset0 : Preset :=
  { speed := ⟨50, 50⟩, hue := ⟨0, 100⟩, bri := ⟨100, 150⟩, sat := ⟨200, 254⟩ }

theorem generate_random_state_in_range_witness :
    preset0.hue.min ≤ preset0.hue.max ∧
    preset0.bri.min ≤ preset0.bri.max ∧
    preset0.sat.min ≤ preset0.sat.max ∧
    (preset0.hue.min ≤ (generate_random_state preset0 7 8 9).hue ∧
      (generate_random_state preset0 7 8 9).hue ≤ preset0.hue.max) :=
  ⟨by decide, by decide, by decide,
   (generate_random_state_in_range preset0 7 8 9 (by decide) (by decide) (by decide)).1⟩

/-- Failure of one full run of Animation.load_effect: the gathered turn-on
step raised, random.choice found no presets, or a push raised at the tick
gather. -/
inductive RunErr where
  | turnOnFailed
  | noAnimations
  | pushFailed
deriving DecidableEq

/-- The call raised (Python: an exception propagated). -/
def excFailed : Except BridgeErr Payload → Bool
  | .error _ => true
  | .ok _ => false

/-- The per-light pushes of one tick of Animation.load_effect, in light
order: each light gets an independent random state drawn from the preset
and a set_light_color call with it; i is the light's index, selecting its
entropy and its network outcome for tick t. -/
def push_list (bc : BridgeCfg) (p : Preset) (rng : Nat → Nat → Nat → Nat)
    (net : Nat → Nat → NetOutcome) (t : Nat) :
    List String → Nat → List (List Event × Except BridgeErr Payload)
  | [], _ => []
  | lid :: rest, i =>
    (let st := generate_random_state p (rng t i 0) (rng t i 1) (rng t i 2)
     set_light_color bc lid (st.hue : ℚ) (st.bri : ℚ) (st.sat : ℚ) (net t i))
      :: push_list bc p rng net t rest (i + 1)

/-- One tick of the loop in Animation.load_effect (src/animation.py). The
per-light try/except wraps only the construction of the set_light_color
coroutine; calling an async def does not run its body, so a push failure
cannot surface inside the try: it surfaces at the asyncio.gather awaiting
the coroutines, and the except clause that would log
"Failed to update light" stays dead for push failures. The debug prints
happen while the coroutines are built, the pushes at the gather; the Bool
records whether some push raised there. -/
def run_tick (bc : BridgeCfg) (lights : List String) (p : Preset)
    (rng : Nat → Nat → Nat → Nat) (net : Nat → Nat → NetOutcome) (t : Nat) :
    List Event × Bool :=
  (lights.map (fun lid => Event.printed ("Light ID: " ++ lid))
     ++ ((push_list bc p rng net t lights 0).map Prod.fst).flatten,
   (push_list bc p rng net t lights 0).any fun r => excFailed r.2)

/-- The tick loop of Animation.load_effect: per tick, push a fresh random
state to every light; a push failure propagates out of the gather, so the
remaining ticks do not run; otherwise sleep config['speed']['min'] / 1000
seconds and continue. n counts the remaining ticks, t the current tick
index. -/
def run_ticks (bc : BridgeCfg) (lights : List String) (p : Preset)
    (rng : Nat → Nat → Nat → Nat) (net : Nat → Nat → NetOutcome) :
    Nat → Nat → List Event × Except RunErr Unit
  | 0, _ => ([], .ok ())
  | n + 1, t =>
    match run_tick bc lights p rng net t with
    | (evs, true) => (evs, .error .pushFailed)
    | (evs, false) =>
      match run_ticks bc lights p rng net n (t + 1) with
      | (evs2, res) => (evs ++ Event.slept ((p.speed.min : ℚ) / 1000) :: evs2, res)

/-- The gathered turn-on calls of Animation.load_effect, one per configured
light, in order; i is the light's index selecting its network outcome. -/
def turn_on_list (bc : BridgeCfg) (onNet : Nat → NetOutcome) :
    List String → Nat → List (List Event × Except BridgeErr Payload)
  | [], _ => []
  | lid :: rest, i => turn_on_light bc lid (onNet i) :: turn_on_list bc onNet rest (i + 1)

/-- The whole turn-on step: all lights are attempted by the gather; the
Bool records whether some turn-on raised, which makes the gather raise. -/
def turn_on_all (bc : BridgeCfg) (lights : List String) (onNet : Nat → NetOutcome) :
    List Event × Bool :=
  (((turn_on_list bc onNet lights 0).map Prod.fst).flatten,
   (turn_on_list bc onNet lights 0).any fun r => excFailed r.2)

/-- Animation.load_effect (src/animation.py): turn on all lights (a
failure propagates and aborts the run before any tick), pick a preset
with random.choice, draw the tick count with randint over the configured
duration bounds, then run the tick loop. -/
def load_effect (bc : BridgeCfg) (lights : List String)
    (animations : List (String × Preset)) (minD maxD : Int) (rChoice rDur : Nat)
    (rng : Nat → Nat → Nat → Nat) (net : Nat → Nat → NetOutcome)
    (onNet : Nat → NetOutcome) : List Event × Except RunErr Unit :=
  match turn_on_all bc lights onNet with
  | (onEvs, true) => (onEvs, .error .turnOnFailed)
  | (onEvs, false) =>
    match choice animations rChoice with
    | none => (onEvs, .error .noAnimations)
    | some nmp =>
      match run_ticks bc lights nmp.2 rng net (randint minD maxD rDur).toNat 0 with
      | (evs, res) => (onEvs ++ evs, res)

/-- One iteration of the while-True loop of Animation.launch
(src/animation.py): run the effect; an exception escaping it is appended
to the animation error log and printed, and the loop continues. -/
def launch_step (run : List Event × Except RunErr Unit) : List Event :=
  run.1 ++
    match run.2 with
    | .ok _ => []
    | .error _ =>
        [Event.logged animLogFile "Animation error", Event.printed "An error occurred"]

/-- Animation.launch observed for n iterations of its unbounded loop: the
i-th run's trace followed by the handling of its outcome; no outcome stops
the loop, so every fuel bound is reached. -/
def launch (runs : Nat → List Event × Except RunErr Unit) : Nat → List Event
  | 0 => []
  | n + 1 => launch_step (runs 0) ++ launch (fun i => runs (i + 1)) n

/-- A run sequence beginning with a given run. -/
def consRuns (r : List Event × Except RunErr Unit)
    (f : Nat → List Event × Except RunErr Unit) :
    Nat → List Event × Except RunErr Unit
  | 0 => r
  | i + 1 => f i

/-- The event is a sleep. -/
def isSleep : Event → Bool
  | .slept _ => true
  | _ => false

/-- The event is a console print. -/
def isPrint : Event → Bool
  | .printed _ => true
  | _ => false

/-- The event is a request or a log append: everything the bridge and
transport layers can emit. -/
def isReqOrLog : Event → Bool
  | .putSent _ _ => true
  | .logged _ _ => true
  | _ => false

/-- Number of sleeps in a trace: one per completed tick. -/
def sleptCount (evs : List Event) : Nat := evs.countP isSleep

/-- Number of console prints in a trace: one per light per tick. -/
def printCount (evs : List Event) : Nat := evs.countP isPrint

theorem reqlog_validate_color (hue bri sat : ℚ) (e : Event)
    (he : e ∈ (validate_color_values hue bri sat).1) : isReqOrLog e = true := by
  unfold validate_color_values at he
  by_cases h1 : 0 ≤ hue ∧ hue ≤ 65535 <;>
    by_cases h2 : 0 ≤ bri ∧ bri ≤ 254 <;>
      by_cases h3 : 0 ≤ sat ∧ sat ≤ 254 <;>
        simp [h1, h2, h3] at he <;> subst he <;> rfl

theorem reqlog_put (url : String) (data : Payload) (net : NetOutcome) (e : Event)
    (he : e ∈ (Http.put url data net).1) : isReqOrLog e = true := by
  unfold Http.put at he
  by_cases hu : validate_url url = false
  · simp [hu] at he
    subst he
    rfl
  · by_cases hp : validate_payload data = false
    · simp [hu, hp] at he
      subst he
      rfl
    · cases net with
      | ok resp =>
        simp [hu, hp] at he
        subst he
        rfl
      | clientError =>
        simp [hu, hp] at he
        rcases he with he | he <;> subst he <;> rfl
      | decodeFailure =>
        simp [hu, hp] at he
        rcases he with he | he <;> subst he <;> rfl

theorem reqlog_set_light_color (bc : BridgeCfg) (lightId : String) (hue bri sat : ℚ)
    (net : NetOutcome) (e : Event)
    (he : e ∈ (set_light_color bc lightId hue bri sat net).1) : isReqOrLog e = true := by
  unfold set_light_color at he
  rcases hv : validate_color_values hue bri sat with ⟨evs, oe⟩
  rw [hv] at he
  cases oe with
  | some e2 =>
    simp at he
    exact reqlog_validate_color hue bri sat e (by rw [hv]; exact he)
  | none =>
    by_cases hid : validate_light_id lightId
    · simp [hid] at he
      rcases hp : Http.put (get_url bc lightId) (colorBody hue bri sat) net with ⟨evs2, res⟩
      rw [hp] at he
      cases res with
      | ok resp =>
        simp at he
        exact reqlog_put _ _ _ e (by rw [hp]; exact he)
      | error e3 =>
        simp at he
        rcases he with he | he
        · exact reqlog_put _ _ _ e (by rw [hp]; exact he)
        · subst he
          rfl
    · simp [hid] at he
      rcases he with he | he <;> subst he <;> rfl

theorem reqlog_turn_on (bc : BridgeCfg) (lightId : String) (net : NetOutcome) (e : Event)
    (he : e ∈ (turn_on_light bc lightId net).1) : isReqOrLog e = true := by
  unfold turn_on_light at he
  by_cases hid : validate_light_id lightId
  · simp [hid] at he
    rcases hp : Http.put (get_url bc lightId) (Payload.pdict [("on", PVal.pbool true)]) net
      with ⟨evs2, res⟩
    rw [hp] at he
    cases res with
    | ok resp =>
      simp at he
      exact reqlog_put _ _ _ e (by rw [hp]; exact he)
    | error e3 =>
      simp at he
      rcases he with he | he
      · exact reqlog_put _ _ _ e (by rw [hp]; exact he)
      · subst he
        rfl
  · simp [hid] at he
    rcases he with he | he <;> subst he <;> rfl

theorem isSleep_of_reqlog (e : Event) (h : isReqOrLog e = true) : isSleep e = false := by
  cases e <;> first | rfl | exact absurd h (by simp [isReqOrLog])

theorem isPrint_of_reqlog (e : Event) (h : isReqOrLog e = true) : isPrint e = false := by
  cases e <;> first | rfl | exact absurd h (by simp [isReqOrLog])

theorem reqlog_push_list (bc : BridgeCfg) (p : Preset) (rng : Nat → Nat → Nat → Nat)
    (net : Nat → Nat → NetOutcome) (t : Nat) :
    ∀ (lights : List String) (i : Nat) (e : Event),
      e ∈ ((push_list bc p rng net t lights i).map Prod.fst).flatten →
      isReqOrLog e = true := by
  intro lights
  induction lights with
  | nil => intro i e he; simp [push_list] at he
  | cons lid rest ih =>
    intro i e he
    simp only [push_list, List.map_cons, List.flatten_cons] at he
    rcases List.mem_append.mp he with he | he
    · exact reqlog_set_light_color _ _ _ _ _ _ e he
    · exact ih (i + 1) e he

theorem reqlog_turn_on_list (bc : BridgeCfg) (onNet : Nat → NetOutcome) :
    ∀ (lights : List String) (i : Nat) (e : Event),
      e ∈ ((turn_on_list bc onNet lights i).map Prod.fst).flatten →
      isReqOrLog e = true := by
  intro lights
  induction lights with
  | nil => intro i e he; simp [turn_on_list] at he
  | cons lid rest ih =>
    intro i e he
    simp only [turn_on_list, List.map_cons, List.flatten_cons] at he
    rcases List.mem_append.mp he with he | he
    · exact reqlog_turn_on _ _ _ e he
    · exact ih (i + 1) e he

theorem isSleep_run_tick (bc : BridgeCfg) (lights : List String) (p : Preset)
    (rng : Nat → Nat → Nat → Nat) (net : Nat → Nat → NetOutcome) (t : Nat) (e : Event)
    (he : e ∈ (run_tick bc lights p rng net t).1) : isSleep e = false := by
  unfold run_tick at he
  rcases List.mem_append.mp he with he | he
  · obtain ⟨lid, _, heq⟩ := List.mem_map.mp he
    subst heq
    rfl
  · exact isSleep_of_reqlog e (reqlog_push_list bc p rng net t lights 0 e he)

theorem sleptCount_run_tick (bc : BridgeCfg) (lights : List String) (p : Preset)
    (rng : Nat → Nat → Nat → Nat) (net : Nat → Nat → NetOutcome) (t : Nat) :
    sleptCount (run_tick bc lights p rng net t).1 = 0 := by
  unfold sleptCount
  exact List.countP_eq_zero.mpr fun e he => by
    simpa using isSleep_run_tick bc lights p rng net t e he

theorem printCount_map_printed (lights : List String) :
    (lights.map fun lid => Event.printed ("Light ID: " ++ lid)).countP isPrint
      = lights.length := by
  induction lights with
  | nil => rfl
  | cons x rest ih => simp [List.countP_cons, ih, isPrint]

theorem printCount_run_tick (bc : BridgeCfg) (lights : List String) (p : Preset)
    (rng : Nat → Nat → Nat → Nat) (net : Nat → Nat → NetOutcome) (t : Nat) :
    printCount (run_tick bc lights p rng net t).1 = lights.length := by
  unfold printCount run_tick
  rw [List.countP_append, printCount_map_printed]
  have h0 : ((push_list bc p rng net t lights 0).map Prod.fst).flatten.countP isPrint = 0 :=
    List.countP_eq_zero.mpr fun e he => by
      simpa using isPrint_of_reqlog e (reqlog_push_list bc p rng net t lights 0 e he)
  omega

theorem sleptCount_turn_on_all (bc : BridgeCfg) (lights : List String)
    (onNet : Nat → NetOutcome) : sleptCount (turn_on_all bc lights onNet).1 = 0 := by
  unfold sleptCount turn_on_all
  exact List.countP_eq_zero.mpr fun e he => by
    simpa using isSleep_of_reqlog e (reqlog_turn_on_list bc onNet lights 0 e he)

theorem printCount_turn_on_all (bc : BridgeCfg) (lights : List String)
    (onNet : Nat → NetOutcome) : printCount (turn_on_all bc lights onNet).1 = 0 := by
  unfold printCount turn_on_all
  exact List.countP_eq_zero.mpr fun e he => by
    simpa using isPrint_of_reqlog e (reqlog_turn_on_list bc onNet lights 0 e he)

/-- The preset's ranges are well ordered and lie inside the ranges the
gateway accepts: hue within [0, 65535], bri and sat within [0, 254]. -/
abbrev presetWithinApi (p : Preset) : Prop :=
  (0 ≤ p.hue.min ∧ p.hue.min ≤ p.hue.max ∧ p.hue.max ≤ 65535) ∧
  (0 ≤ p.bri.min ∧ p.bri.min ≤ p.bri.max ∧ p.bri.max ≤ 254) ∧
  (0 ≤ p.sat.min ∧ p.sat.min ≤ p.sat.max ∧ p.sat.max ≤ 254)

theorem state_colorInRange (p : Preset) (hw : presetWithinApi p) (r1 r2 r3 : Nat) :
    colorInRange ((generate_random_state p r1 r2 r3).hue : ℚ)
      ((generate_random_state p r1 r2 r3).bri : ℚ)
      ((generate_random_state p r1 r2 r3).sat : ℚ) := by
  obtain ⟨⟨hh0, hhm, hhM⟩, ⟨hb0, hbm, hbM⟩, ⟨hs0, hsm, hsM⟩⟩ := hw
  have h1 := randint_mem p.hue.min p.hue.max hhm r1
  have h2 := randint_mem p.bri.min p.bri.max hbm r2
  have h3 := randint_mem p.sat.min p.sat.max hsm r3
  simp only [generate_random_state]
  refine ⟨⟨?_, ?_⟩, ⟨?_, ?_⟩, ⟨?_, ?_⟩⟩
  · exact_mod_cast (show (0 : Int) ≤ randint p.hue.min p.hue.max r1 by omega)
  · exact_mod_cast (show randint p.hue.min p.hue.max r1 ≤ 65535 by omega)
  · exact_mod_cast (show (0 : Int) ≤ randint p.bri.min p.bri.max r2 by omega)
  · exact_mod_cast (show randint p.bri.min p.bri.max r2 ≤ 254 by omega)
  · exact_mod_cast (show (0 : Int) ≤ randint p.sat.min p.sat.max r3 by omega)
  · exact_mod_cast (show randint p.sat.min p.sat.max r3 ≤ 254 by omega)

theorem push_list_ok (bc : BridgeCfg) (p : Preset) (rng : Nat → Nat → Nat → Nat)
    (net : Nat → Nat → NetOutcome) (t : Nat) (hw : presetWithinApi p) :
    ∀ (lights : List String) (i : Nat),
      (∀ lid ∈ lights, validate_light_id lid = true) →
      (∀ j, ∃ resp, net t j = NetOutcome.ok resp) →
      ∀ res ∈ push_list bc p rng net t lights i,
        ∃ u b resp, res = ([Event.putSent u b], Except.ok resp) := by
  intro lights
  induction lights with
  | nil => intro i _ _ res hres; simp [push_list] at hres
  | cons lid rest ih =>
    intro i hl hnet res hres
    simp only [push_list, List.mem_cons] at hres
    rcases hres with hres | hres
    · obtain ⟨resp, hresp⟩ := hnet i
      subst hres
      rw [hresp,
        set_light_color_ok bc lid _ _ _ resp
          (state_colorInRange p hw (rng t i 0) (rng t i 1) (rng t i 2))
          (hl lid (List.mem_cons_self lid rest))]
      exact ⟨_, _, resp, rfl⟩
    · exact ih (i + 1) (fun l hml => hl l (List.mem_cons_of_mem lid hml)) hnet res hres

theorem run_tick_ok (bc : BridgeCfg) (lights : List String) (p : Preset)
    (rng : Nat → Nat → Nat → Nat) (net : Nat → Nat → NetOutcome) (t : Nat)
    (hw : presetWithinApi p)
    (hl : ∀ lid ∈ lights, validate_light_id lid = true)
    (hnet : ∀ j, ∃ resp, net t j = NetOutcome.ok resp) :
    (run_tick bc lights p rng net t).2 = false := by
  unfold run_tick
  simp only [List.any_eq_false]
  intro res hres
  obtain ⟨u, b, resp, heq⟩ := push_list_ok bc p rng net t hw lights 0 hl hnet res hres
  simp [heq, excFailed]

theorem turn_on_light_ok (bc : BridgeCfg) (lid : String) (resp : Payload)
    (hid : validate_light_id lid = true) :
    turn_on_light bc lid (NetOutcome.ok resp)
      = ([Event.putSent (get_url bc lid) (Payload.pdict [("on", PVal.pbool true)])],
         Except.ok resp) := by
  have hput := Http.put_ok (get_url bc lid) (Payload.pdict [("on", PVal.pbool true)]) resp
    (validate_url_get_url bc lid) rfl
  simp [turn_on_light, hid, hput]

theorem turn_on_list_ok (bc : BridgeCfg) (onNet : Nat → NetOutcome) :
    ∀ (lights : List String) (i : Nat),
      (∀ lid ∈ lights, validate_light_id lid = true) →
      (∀ j, ∃ resp, onNet j = NetOutcome.ok resp) →
      ∀ res ∈ turn_on_list bc onNet lights i,
        ∃ u b resp, res = ([Event.putSent u b], Except.ok resp) := by
  intro lights
  induction lights with
  | nil => intro i _ _ res hres; simp [turn_on_list] at hres
  | cons lid rest ih =>
    intro i hl hon res hres
    simp only [turn_on_list, List.mem_cons] at hres
    rcases hres with hres | hres
    · obtain ⟨resp, hresp⟩ := hon i
      subst hres
      rw [hresp, turn_on_light_ok bc lid resp (hl lid (List.mem_cons_self lid rest))]
      exact ⟨_, _, resp, rfl⟩
    · exact ih (i + 1) (fun l hml => hl l (List.mem_cons_of_mem lid hml)) hon res hres

theorem turn_on_all_ok (bc : BridgeCfg) (lights : List String) (onNet : Nat → NetOutcome)
    (hl : ∀ lid ∈ lights, validate_light_id lid = true)
    (hon : ∀ j, ∃ resp, onNet j = NetOutcome.ok resp) :
    (turn_on_all bc lights onNet).2 = false := by
  unfold turn_on_all
  simp only [List.any_eq_false]
  intro res hres
  obtain ⟨u, b, resp, heq⟩ := turn_on_list_ok bc onNet lights 0 hl hon res hres
  simp [heq, excFailed]

theorem choice_mem (xs : List α) (r : Nat) (h : xs ≠ []) :
    ∃ x, choice xs r = some x ∧ x ∈ xs := by
  unfold choice
  have hlen : 0 < xs.length := List.length_pos.mpr h
  have hlt : r % xs.length < xs.length := Nat.mod_lt r hlen
  exact ⟨xs.get ⟨r % xs.length, hlt⟩, List.get?_eq_get hlt, List.get_mem xs _ hlt⟩

theorem run_ticks_succ_ok (bc : BridgeCfg) (lights : List String) (p : Preset)
    (rng : Nat → Nat → Nat → Nat) (net : Nat → Nat → NetOutcome) (n t : Nat)
    (evs : List Event) (hb : run_tick bc lights p rng net t = (evs, false)) :
    run_ticks bc lights p rng net (n + 1) t
      = (evs ++ Event.slept ((p.speed.min : ℚ) / 1000)
            :: (run_ticks bc lights p rng net n (t + 1)).1,
         (run_ticks bc lights p rng net n (t + 1)).2) := by
  simp only [run_ticks, hb]

theorem run_ticks_succ_fail (bc : BridgeCfg) (lights : List String) (p : Preset)
    (rng : Nat → Nat → Nat → Nat) (net : Nat → Nat → NetOutcome) (n t : Nat)
    (evs : List Event) (hb : run_tick bc lights p rng net t = (evs, true)) :
    run_ticks bc lights p rng net (n + 1) t = (evs, Except.error RunErr.pushFailed) := by
  simp only [run_ticks, hb]

theorem load_effect_eq_turnOnFail (bc : BridgeCfg) (lights : List String)
    (animations : List (String × Preset)) (minD maxD : Int) (rChoice rDur : Nat)
    (rng : Nat → Nat → Nat → Nat) (net : Nat → Nat → NetOutcome) (onNet : Nat → NetOutcome)
    (onEvs : List Event) (hta : turn_on_all bc lights onNet = (onEvs, true)) :
    load_effect bc lights animations minD maxD rChoice rDur rng net onNet
      = (onEvs, Except.error RunErr.turnOnFailed) := by
  simp only [load_effect, hta]

theorem load_effect_eq_run (bc : BridgeCfg) (lights : List String)
    (animations : List (String × Preset)) (minD maxD : Int) (rChoice rDur : Nat)
    (rng : Nat → Nat → Nat → Nat) (net : Nat → Nat → NetOutcome) (onNet : Nat → NetOutcome)
    (onEvs : List Event) (nmp : String × Preset)
    (hta : turn_on_all bc lights onNet = (onEvs, false))
    (hcho : choice animations rChoice = some nmp) :
    load_effect bc lights animations minD maxD rChoice rDur rng net onNet
      = (onEvs ++ (run_ticks bc lights nmp.2 rng net (randint minD maxD rDur).toNat 0).1,
         (run_ticks bc lights nmp.2 rng net (randint minD maxD rDur).toNat 0).2) := by
  simp only [load_effect, hta, hcho]

theorem run_ticks_ok (bc : BridgeCfg) (lights : List String) (p : Preset)
    (rng : Nat → Nat → Nat → Nat) (net : Nat → Nat → NetOutcome)
    (hw : presetWithinApi p)
    (hl : ∀ lid ∈ lights, validate_light_id lid = true)
    (hnet : ∀ t j, ∃ resp, net t j = NetOutcome.ok resp) :
    ∀ n t, (run_ticks bc lights p rng net n t).2 = Except.ok () ∧
      sleptCount (run_ticks bc lights p rng net n t).1 = n ∧
      printCount (run_ticks bc lights p rng net n t).1 = n * lights.length := by
  intro n
  induction n with
  | zero => intro t; exact ⟨rfl, rfl, by simp [run_ticks, printCount]⟩
  | succ n ih =>
    intro t
    rcases hrt : run_tick bc lights p rng net t with ⟨evs, b⟩
    have hbf : b = false := by
      have hfb := run_tick_ok bc lights p rng net t hw hl (hnet t)
      rw [hrt] at hfb
      exact hfb
    subst hbf
    rw [run_ticks_succ_ok bc lights p rng net n t evs hrt]
    obtain ⟨hres, hcnt, hprt⟩ := ih (t + 1)
    have hslept : sleptCount evs = 0 := by
      have h := sleptCount_run_tick bc lights p rng net t
      rw [hrt] at h
      exact h
    have hprint : printCount evs = lights.length := by
      have h := printCount_run_tick bc lights p rng net t
      rw [hrt] at h
      exact h
    refine ⟨hres, ?_, ?_⟩
    · simp only [sleptCount, List.countP_append, List.countP_cons] at hslept hcnt ⊢
      simp only [isSleep, if_true]
      omega
    · simp only [printCount, List.countP_append, List.countP_cons] at hprint hprt ⊢
      simp only [isPrint, Bool.false_eq_true, if_false]
      have hmul : (n + 1) * lights.length = n * lights.length + lights.length :=
        Nat.succ_mul n lights.length
      omega

theorem load_effect_ok (bc : BridgeCfg) (lights : List String)
    (animations : List (String × Preset)) (minD maxD : Int) (rChoice rDur : Nat)
    (rng : Nat → Nat → Nat → Nat) (net : Nat → Nat → NetOutcome) (onNet : Nat → NetOutcome)
    (hl : ∀ lid ∈ lights, validate_light_id lid = true)
    (ha : animations ≠ [])
    (hb : ∀ a ∈ animations, presetWithinApi a.2)
    (hon : ∀ j, ∃ resp, onNet j = NetOutcome.ok resp)
    (hnet : ∀ t j, ∃ resp, net t j = NetOutcome.ok resp) :
    (load_effect bc lights animations minD maxD rChoice rDur rng net onNet).2
        = Except.ok () ∧
    sleptCount (load_effect bc lights animations minD maxD rChoice rDur rng net onNet).1
        = (randint minD maxD rDur).toNat ∧
    printCount (load_effect bc lights animations minD maxD rChoice rDur rng net onNet).1
        = (randint minD maxD rDur).toNat * lights.length := by
  rcases hta : turn_on_all bc lights onNet with ⟨onEvs, bon⟩
  have hbon : bon = false := by
    have h := turn_on_all_ok bc lights onNet hl hon
    rw [hta] at h
    exact h
  subst hbon
  have htos : sleptCount onEvs = 0 := by
    have h := sleptCount_turn_on_all bc lights onNet
    rw [hta] at h
    exact h
  have htop : printCount onEvs = 0 := by
    have h := printCount_turn_on_all bc lights onNet
    rw [hta] at h
    exact h
  obtain ⟨nmp, hcho, hmem⟩ := choice_mem animations rChoice ha
  obtain ⟨hres, hcnt, hprt⟩ :=
    run_ticks_ok bc lights nmp.2 rng net (hb nmp hmem) hl hnet (randint minD maxD rDur).toNat 0
  rw [load_effect_eq_run bc lights animations minD maxD rChoice rDur rng net onNet
    onEvs nmp hta hcho]
  refine ⟨hres, ?_, ?_⟩
  · simp only [sleptCount, List.countP_append] at htos hcnt ⊢
    omega
  · simp only [printCount, List.countP_append] at htop hprt ⊢
    omega

theorem slept_run_ticks (bc : BridgeCfg) (lights : List String) (p : Preset)
    (rng : Nat → Nat → Nat → Nat) (net : Nat → Nat → NetOutcome) :
    ∀ n t s, Event.slept s ∈ (run_ticks bc lights p rng net n t).1 →
      s = (p.speed.min : ℚ) / 1000 := by
  intro n
  induction n with
  | zero => intro t s h; simp [run_ticks] at h
  | succ n ih =>
    intro t s h
    rcases hrt : run_tick bc lights p rng net t with ⟨evs, b⟩
    cases b with
    | true =>
      rw [run_ticks_succ_fail bc lights p rng net n t evs hrt] at h
      have hns := isSleep_run_tick bc lights p rng net t (Event.slept s) (by rw [hrt]; exact h)
      simp [isSleep] at hns
    | false =>
      rw [run_ticks_succ_ok bc lights p rng net n t evs hrt] at h
      rcases List.mem_append.mp h with h | h
      · have hns := isSleep_run_tick bc lights p rng net t (Event.slept s) (by rw [hrt]; exact h)
        simp [isSleep] at hns
      · rcases List.mem_cons.mp h with h | h
        · injection h with h2
        · exact ih (t + 1) s h

/-- The preset with its speed max replaced, leaving everything else. -/
def setSpeedMax (p : Preset) (m : Int) : Preset :=
  { p with speed := ⟨p.speed.min, m⟩ }

theorem push_list_setSpeedMax (bc : BridgeCfg) (p : Preset) (m : Int)
    (rng : Nat → Nat → Nat → Nat) (net : Nat → Nat → NetOutcome) (t : Nat) :
    ∀ (lights : List String) (i : Nat),
      push_list bc (setSpeedMax p m) rng net t lights i
        = push_list bc p rng net t lights i := by
  intro lights
  induction lights with
  | nil => intro i; rfl
  | cons lid rest ih =>
    intro i
    simp only [push_list]
    rw [ih (i + 1)]
    rfl

theorem run_tick_setSpeedMax (bc : BridgeCfg) (lights : List String) (p : Preset)
    (m : Int) (rng : Nat → Nat → Nat → Nat) (net : Nat → Nat → NetOutcome) (t : Nat) :
    run_tick bc lights (setSpeedMax p m) rng net t = run_tick bc lights p rng net t := by
  unfold run_tick
  rw [push_list_setSpeedMax bc p m rng net t lights 0]

theorem run_ticks_setSpeedMax (bc : BridgeCfg) (lights : List String) (p : Preset)
    (m : Int) (rng : Nat → Nat → Nat → Nat) (net : Nat → Nat → NetOutcome) :
    ∀ n t, run_ticks bc lights (setSpeedMax p m) rng net n t
      = run_ticks bc lights p rng net n t := by
  intro n
  induction n with
  | zero => intro t; rfl
  | succ n ih =>
    intro t
    rcases hrt : run_tick bc lights p rng net t with ⟨evs, b⟩
    have hrt2 : run_tick bc lights (setSpeedMax p m) rng net t = (evs, b) := by
      rw [run_tick_setSpeedMax bc lights p m rng net t]
      exact hrt
    cases b with
    | true =>
      rw [run_ticks_succ_fail bc lights (setSpeedMax p m) rng net n t evs hrt2,
        run_ticks_succ_fail bc lights p rng net n t evs hrt]
    | false =>
      rw [run_ticks_succ_ok bc lights (setSpeedMax p m) rng net n t evs hrt2,
        run_ticks_succ_ok bc lights p rng net n t evs hrt, ih (t + 1)]
      rfl

theorem choice_map (f : α → β) (xs : List α) (r : Nat) :
    choice (xs.map f) r = (choice xs r).map f := by
  unfold choice
  rw [List.length_map]
  exact List.get?_map f xs _

theorem load_effect_eq_noAnim (bc : BridgeCfg) (lights : List String)
    (animations : List (String × Preset)) (minD maxD : Int) (rChoice rDur : Nat)
    (rng : Nat → Nat → Nat → Nat) (net : Nat → Nat → NetOutcome) (onNet : Nat → NetOutcome)
    (onEvs : List Event) (hta : turn_on_all bc lights onNet = (onEvs, false))
    (hcho : choice animations rChoice = none) :
    load_effect bc lights animations minD maxD rChoice rDur rng net onNet
      = (onEvs, Except.error RunErr.noAnimations) := by
  simp only [load_effect, hta, hcho]

theorem turn_on_light_clientError (bc : BridgeCfg) (lid : String)
    (hid : validate_light_id lid = true) :
    turn_on_light bc lid NetOutcome.clientError
      = ([Event.putSent (get_url bc lid) (Payload.pdict [("on", PVal.pbool true)]),
          Event.logged httpLogFile ("PUT request failed for URL " ++ get_url bc lid),
          Event.logged bridgeLogFile ("Failed to turn on light " ++ lid)],
         Except.error (BridgeErr.transport HttpErr.requestFailed)) := by
  have hput : Http.put (get_url bc lid) (Payload.pdict [("on", PVal.pbool true)])
      NetOutcome.clientError
      = ([Event.putSent (get_url bc lid) (Payload.pdict [("on", PVal.pbool true)]),
          Event.logged httpLogFile ("PUT request failed for URL " ++ get_url bc lid)],
         Except.error HttpErr.requestFailed) := by
    simp [Http.put, validate_url_get_url bc lid]
    rfl
  simp [turn_on_light, hid, hput]

theorem turn_on_light_decodeFailure (bc : BridgeCfg) (lid : String)
    (hid : validate_light_id lid = true) :
    turn_on_light bc lid NetOutcome.decodeFailure
      = ([Event.putSent (get_url bc lid) (Payload.pdict [("on", PVal.pbool true)]),
          Event.logged httpLogFile
            ("Invalid JSON response for PUT request to " ++ get_url bc lid),
          Event.logged bridgeLogFile ("Failed to turn on light " ++ lid)],
         Except.error (BridgeErr.transport HttpErr.decodeError)) := by
  have hput : Http.put (get_url bc lid) (Payload.pdict [("on", PVal.pbool true)])
      NetOutcome.decodeFailure
      = ([Event.putSent (get_url bc lid) (Payload.pdict [("on", PVal.pbool true)]),
          Event.logged httpLogFile
            ("Invalid JSON response for PUT request to " ++ get_url bc lid)],
         Except.error HttpErr.decodeError) := by
    simp [Http.put, validate_url_get_url bc lid]
    rfl
  simp [turn_on_light, hid, hput]

theorem turn_on_light_badId (bc : BridgeCfg) (lid : String) (net : NetOutcome)
    (hid : validate_light_id lid = false) :
    turn_on_light bc lid net
      = ([Event.logged bridgeLogFile ("Invalid light ID: " ++ lid),
          Event.logged bridgeLogFile ("Failed to turn on light " ++ lid)],
         Except.error BridgeErr.invalidLightId) := by
  simp [turn_on_light, hid]

theorem turn_on_light_fails (bc : BridgeCfg) (lid : String) (net : NetOutcome)
    (hnet : ∀ r, net ≠ NetOutcome.ok r) :
    excFailed (turn_on_light bc lid net).2 = true ∧
    ∃ m, Event.logged bridgeLogFile m ∈ (turn_on_light bc lid net).1 := by
  by_cases hid : validate_light_id lid = true
  · cases net with
    | ok r => exact absurd rfl (hnet r)
    | clientError =>
      rw [turn_on_light_clientError bc lid hid]
      exact ⟨rfl, ⟨"Failed to turn on light " ++ lid, by simp⟩⟩
    | decodeFailure =>
      rw [turn_on_light_decodeFailure bc lid hid]
      exact ⟨rfl, ⟨"Failed to turn on light " ++ lid, by simp⟩⟩
  · have hid2 : validate_light_id lid = false := by
      cases h : validate_light_id lid
      · rfl
      · exact absurd h hid
    rw [turn_on_light_badId bc lid net hid2]
    exact ⟨rfl, ⟨"Invalid light ID: " ++ lid, by simp⟩⟩

theorem turn_on_list_any_fail (bc : BridgeCfg) (onNet : Nat → NetOutcome) :
    ∀ (lights : List String) (i j : Nat) (lid : String),
      lights.get? j = some lid →
      excFailed (turn_on_light bc lid (onNet (i + j))).2 = true →
      ((turn_on_list bc onNet lights i).any fun r => excFailed r.2) = true := by
  intro lights
  induction lights with
  | nil => intro i j lid hj _; simp at hj
  | cons x rest ih =>
    intro i j lid hj hf
    cases j with
    | zero =>
      have hx : x = lid := by simpa using hj
      subst hx
      rw [Nat.add_zero] at hf
      simp [turn_on_list, hf]
    | succ j2 =>
      have hj2 : rest.get? j2 = some lid := by simpa using hj
      have hf2 : excFailed (turn_on_light bc lid (onNet ((i + 1) + j2))).2 = true := by
        have harith : (i + 1) + j2 = i + (j2 + 1) := by omega
        rw [harith]
        exact hf
      have hrec := ih (i + 1) j2 lid hj2 hf2
      simp [turn_on_list, hrec]

theorem turn_on_list_mem_events (bc : BridgeCfg) (onNet : Nat → NetOutcome) :
    ∀ (lights : List String) (i j : Nat) (lid : String) (e : Event),
      lights.get? j = some lid →
      e ∈ (turn_on_light bc lid (onNet (i + j))).1 →
      e ∈ ((turn_on_list bc onNet lights i).map Prod.fst).flatten := by
  intro lights
  induction lights with
  | nil => intro i j lid e hj _; simp at hj
  | cons x rest ih =>
    intro i j lid e hj he
    simp only [turn_on_list, List.map_cons, List.flatten_cons]
    cases j with
    | zero =>
      have hx : x = lid := by simpa using hj
      subst hx
      rw [Nat.add_zero] at he
      exact List.mem_append_left _ he
    | succ j2 =>
      have hj2 : rest.get? j2 = some lid := by simpa using hj
      have he2 : e ∈ (turn_on_light bc lid (onNet ((i + 1) + j2))).1 := by
        have harith : (i + 1) + j2 = i + (j2 + 1) := by omega
        rw [harith]
        exact he
      exact List.mem_append_right _ (ih (i + 1) j2 lid e hj2 he2)

theorem turn_on_all_fails (bc : BridgeCfg) (lights : List String) (onNet : Nat → NetOutcome)
    (j : Nat) (lid : String) (hj : lights.get? j = some lid)
    (hnet : ∀ r, onNet j ≠ NetOutcome.ok r) :
    (turn_on_all bc lights onNet).2 = true ∧
    ∃ m, Event.logged bridgeLogFile m ∈ (turn_on_all bc lights onNet).1 := by
  obtain ⟨hf, m, hm⟩ := turn_on_light_fails bc lid (onNet j) hnet
  constructor
  · exact turn_on_list_any_fail bc onNet lights 0 j lid hj (by rw [Nat.zero_add]; exact hf)
  · exact ⟨m, turn_on_list_mem_events bc onNet lights 0 j lid _ hj
      (by rw [Nat.zero_add]; exact hm)⟩

/-- Claim C5: in a run where every turn-on and every push succeeds, the
tick count equals the randint draw over the inclusive duration interval:
with minDuration = maxDuration = k exactly k ticks execute (k sleeps and
k prints per light); randint restricted to one entropy period is a
bijection onto the inclusive interval, so the draw is uniform for uniform
entropy; and the duration bounds default to 20 and 200. -/
theorem load_effect_tick_count (bc : BridgeCfg) (lights : List String)
    (animations : List (String × Preset)) (rChoice rDur : Nat)
    (rng : Nat → Nat → Nat → Nat) (net : Nat → Nat → NetOutcome) (onNet : Nat → NetOutcome)
    (hl : ∀ lid ∈ lights, validate_light_id lid = true)
    (ha : animations ≠ [])
    (hb : ∀ a ∈ animations, presetWithinApi a.2)
    (hon : ∀ j, ∃ resp, onNet j = NetOutcome.ok resp)
    (hnet : ∀ t j, ∃ resp, net t j = NetOutcome.ok resp) :
    (∀ minD maxD : Int,
       (load_effect bc lights animations minD maxD rChoice rDur rng net onNet).2
           = Except.ok () ∧
       sleptCount (load_effect bc lights animations minD maxD rChoice rDur rng net onNet).1
           = (randint minD maxD rDur).toNat) ∧
    (∀ k : Nat,
       sleptCount
           (load_effect bc lights animations (k : Int) (k : Int) rChoice rDur rng net onNet).1
           = k ∧
       printCount
           (load_effect bc lights animations (k : Int) (k : Int) rChoice rDur rng net onNet).1
           = k * lights.length) ∧
    (∀ lo hi : Int, lo ≤ hi → ∀ v : Int,
       (lo ≤ v ∧ v ≤ hi ↔ ∃ r, r < (hi - lo + 1).toNat ∧ randint lo hi r = v)) ∧
    (∀ lo hi : Int, ∀ r1 r2 : Nat, r1 < (hi - lo + 1).toNat → r2 < (hi - lo + 1).toNat →
       randint lo hi r1 = randint lo hi r2 → r1 = r2) ∧
    minimum_duration none = 20 ∧ maximum_duration none = 200 := by
  refine ⟨?_, ?_, ?_, ?_, rfl, rfl⟩
  · intro minD maxD
    obtain ⟨h1, h2, h3⟩ := load_effect_ok bc lights animations minD maxD rChoice rDur
      rng net onNet hl ha hb hon hnet
    exact ⟨h1, h2⟩
  · intro k
    obtain ⟨h1, h2, h3⟩ := load_effect_ok bc lights animations (k : Int) (k : Int)
      rChoice rDur rng net onNet hl ha hb hon hnet
    have hr : (randint (k : Int) (k : Int) rDur).toNat = k := by
      rw [randint_same]
      omega
    rw [hr] at h2 h3
    exact ⟨h2, h3⟩
  · intro lo hi hle v
    constructor
    · intro hv
      exact randint_surjOn lo hi v hle hv
    · rintro ⟨r, _, hveq⟩
      rw [← hveq]
      exact randint_mem lo hi hle r
  · intro lo hi r1 r2 h1 h2 heq
    exact randint_injOn lo hi r1 r2 h1 h2 heq

/-- An entropy stream that always returns 0. -/
def rngZero : Nat → Nat → Nat → Nat := fun _ _ _ => 0

/-- A network in which every push succeeds. -/
def netOk : Nat → Nat → NetOutcome := fun _ _ => NetOutcome.ok resp0

/-- Turn-on outcomes that always succeed. -/
def onNetOk : Nat → NetOutcome := fun _ => NetOutcome.ok resp0

theorem load_effect_tick_count_witness :
    (∀ lid ∈ ["1"], validate_light_id lid = true) ∧
    (load_effect bridge0 ["1"] [("pulse", preset0)] ((2 : Nat) : Int) ((2 : Nat) : Int)
        0 0 rngZero netOk onNetOk).2 = Except.ok () ∧
    sleptCount (load_effect bridge0 ["1"] [("pulse", preset0)] ((2 : Nat) : Int)
        ((2 : Nat) : Int) 0 0 rngZero netOk onNetOk).1 = 2 :=
  have h := load_effect_tick_count bridge0 ["1"] [("pulse", preset0)] 0 0 rngZero netOk
    onNetOk (by decide) (by decide) (by decide)
    (fun j => ⟨resp0, rfl⟩) (fun t j => ⟨resp0, rfl⟩)
  ⟨by decide, (h.1 ((2 : Nat) : Int) ((2 : Nat) : Int)).1, (h.2.1 2).1⟩

/-- Claim C7: every inter-tick sleep of a run lasts exactly
speed.min / 1000 seconds of the preset random.choice selected for that
run; and the preset's speed.max, although required and validated at load
time, has no effect on any runtime behaviour: replacing every preset's
speed.max leaves the whole run, trace and outcome, unchanged. -/
theorem sleep_uses_speed_min (bc : BridgeCfg) (lights : List String)
    (animations : List (String × Preset)) (minD maxD : Int) (rChoice rDur : Nat)
    (rng : Nat → Nat → Nat → Nat) (net : Nat → Nat → NetOutcome) (onNet : Nat → NetOutcome)
    (m : Int) :
    (∀ nm p, choice animations rChoice = some (nm, p) →
       ∀ s : ℚ,
         Event.slept s
             ∈ (load_effect bc lights animations minD maxD rChoice rDur rng net onNet).1 →
         s = (p.speed.min : ℚ) / 1000) ∧
    load_effect bc lights (animations.map fun a => (a.1, setSpeedMax a.2 m))
        minD maxD rChoice rDur rng net onNet
      = load_effect bc lights animations minD maxD rChoice rDur rng net onNet := by
  constructor
  · intro nm p hcho s hs
    rcases hta : turn_on_all bc lights onNet with ⟨onEvs, bon⟩
    have hz : sleptCount onEvs = 0 := by
      have h := sleptCount_turn_on_all bc lights onNet
      rw [hta] at h
      exact h
    cases bon with
    | true =>
      rw [load_effect_eq_turnOnFail bc lights animations minD maxD rChoice rDur
        rng net onNet onEvs hta] at hs
      have := List.countP_eq_zero.mp hz (Event.slept s) hs
      simp [isSleep] at this
    | false =>
      rw [load_effect_eq_run bc lights animations minD maxD rChoice rDur rng net onNet
        onEvs (nm, p) hta hcho] at hs
      rcases List.mem_append.mp hs with hs | hs
      · have := List.countP_eq_zero.mp hz (Event.slept s) hs
        simp [isSleep] at this
      · exact slept_run_ticks bc lights p rng net (randint minD maxD rDur).toNat 0 s hs
  · rcases hta : turn_on_all bc lights onNet with ⟨onEvs, bon⟩
    cases bon with
    | true =>
      rw [load_effect_eq_turnOnFail bc lights (animations.map fun a => (a.1, setSpeedMax a.2 m))
          minD maxD rChoice rDur rng net onNet onEvs hta,
        load_effect_eq_turnOnFail bc lights animations minD maxD rChoice rDur
          rng net onNet onEvs hta]
    | false =>
      cases hcho : choice animations rChoice with
      | none =>
        have hcho2 : choice (animations.map fun a => (a.1, setSpeedMax a.2 m)) rChoice
            = none := by
          rw [choice_map, hcho]
          rfl
        rw [load_effect_eq_noAnim bc lights (animations.map fun a => (a.1, setSpeedMax a.2 m))
            minD maxD rChoice rDur rng net onNet onEvs hta hcho2,
          load_effect_eq_noAnim bc lights animations minD maxD rChoice rDur
            rng net onNet onEvs hta hcho]
      | some nmp =>
        have hcho2 : choice (animations.map fun a => (a.1, setSpeedMax a.2 m)) rChoice
            = some (nmp.1, setSpeedMax nmp.2 m) := by
          rw [choice_map, hcho]
          rfl
        rw [load_effect_eq_run bc lights (animations.map fun a => (a.1, setSpeedMax a.2 m))
            minD maxD rChoice rDur rng net onNet onEvs (nmp.1, setSpeedMax nmp.2 m) hta hcho2,
          load_effect_eq_run bc lights animations minD maxD rChoice rDur rng net onNet
            onEvs nmp hta hcho,
          run_ticks_setSpeedMax bc lights nmp.2 m rng net (randint minD maxD rDur).toNat 0]

theorem sleep_uses_speed_min_witness :
    choice [("pulse", preset0)] 0 = some ("pulse", preset0) ∧
    Event.slept ((preset0.speed.min : ℚ) / 1000)
      ∈ (load_effect bridge0 ["1"] [("pulse", preset0)] 1 1 0 0 rngZero netOk onNetOk).1 ∧
    (preset0.speed.min : ℚ) / 1000 = (preset0.speed.min : ℚ) / 1000 := by
  have hcho : choice [("pulse", preset0)] 0 = some ("pulse", preset0) := rfl
  rcases hta : turn_on_all bridge0 ["1"] onNetOk with ⟨onEvs, bon⟩
  have hbon : bon = false := by
    have h := turn_on_all_ok bridge0 ["1"] onNetOk (by decide) (fun j => ⟨resp0, rfl⟩)
    rw [hta] at h
    exact h
  subst hbon
  rcases hrt : run_tick bridge0 ["1"] preset0 rngZero netOk 0 with ⟨evs, b⟩
  have hbf : b = false := by
    have h := run_tick_ok bridge0 ["1"] preset0 rngZero netOk 0 (by decide) (by decide)
      (fun j => ⟨resp0, rfl⟩)
    rw [hrt] at h
    exact h
  subst hbf
  have hmem : Event.slept ((preset0.speed.min : ℚ) / 1000)
      ∈ (load_effect bridge0 ["1"] [("pulse", preset0)] 1 1 0 0 rngZero netOk onNetOk).1 := by
    rw [load_effect_eq_run bridge0 ["1"] [("pulse", preset0)] 1 1 0 0 rngZero netOk onNetOk
      onEvs ("pulse", preset0) hta hcho]
    have hdur : (randint (1 : Int) 1 0).toNat = 0 + 1 := by
      rw [randint_same]
      rfl
    rw [hdur, run_ticks_succ_ok bridge0 ["1"] preset0 rngZero netOk 0 0 evs hrt]
    apply List.mem_append_right
    apply List.mem_append_right
    exact List.mem_cons_self _ _
  exact ⟨hcho, hmem,
    (sleep_uses_speed_min bridge0 ["1"] [("pulse", preset0)] 1 1 0 0 rngZero netOk
        onNetOk 0).1 "pulse" preset0 hcho _ hmem⟩

/-- Claim C6: when turning on some light fails before the tick loop, the
run aborts with an exception before any tick runs (no sleeps and no
prints), the failure is logged by the gateway, and the outer driver
catches the escaped exception, logs it to the animation error log, prints
it, and proceeds with the next run of its unbounded loop. -/
theorem turn_on_failure_restarts_run (bc : BridgeCfg) (lights : List String)
    (animations : List (String × Preset)) (minD maxD : Int) (rChoice rDur : Nat)
    (rng : Nat → Nat → Nat → Nat) (net : Nat → Nat → NetOutcome) (onNet : Nat → NetOutcome)
    (j : Nat) (lid : String)
    (hj : lights.get? j = some lid)
    (hfail : ∀ r, onNet j ≠ NetOutcome.ok r)
    (laterRuns : Nat → List Event × Except RunErr Unit) (n : Nat) :
    (load_effect bc lights animations minD maxD rChoice rDur rng net onNet).2
        = Except.error RunErr.turnOnFailed ∧
    sleptCount (load_effect bc lights animations minD maxD rChoice rDur rng net onNet).1
        = 0 ∧
    printCount (load_effect bc lights animations minD maxD rChoice rDur rng net onNet).1
        = 0 ∧
    (∃ m, Event.logged bridgeLogFile m
        ∈ (load_effect bc lights animations minD maxD rChoice rDur rng net onNet).1) ∧
    launch (consRuns (load_effect bc lights animations minD maxD rChoice rDur rng net onNet)
        laterRuns) (n + 1)
      = (load_effect bc lights animations minD maxD rChoice rDur rng net onNet).1
          ++ [Event.logged animLogFile "Animation error",
              Event.printed "An error occurred"]
          ++ launch laterRuns n := by
  obtain ⟨hf, hlog⟩ := turn_on_all_fails bc lights onNet j lid hj hfail
  rcases hta : turn_on_all bc lights onNet with ⟨onEvs, bon⟩
  rw [hta] at hf hlog
  have hbon : bon = true := hf
  subst hbon
  have heq := load_effect_eq_turnOnFail bc lights animations minD maxD rChoice rDur
    rng net onNet onEvs hta
  rw [heq]
  refine ⟨rfl, ?_, ?_, ?_, ?_⟩
  · have h := sleptCount_turn_on_all bc lights onNet
    rw [hta] at h
    exact h
  · have h := printCount_turn_on_all bc lights onNet
    rw [hta] at h
    exact h
  · exact hlog
  · simp only [launch]
    have h0 : consRuns (onEvs, Except.error RunErr.turnOnFailed) laterRuns 0
        = (onEvs, Except.error RunErr.turnOnFailed) := rfl
    have hsh : (fun i => consRuns (onEvs, Except.error RunErr.turnOnFailed) laterRuns (i + 1))
        = laterRuns := funext fun i => rfl
    rw [h0, hsh]
    simp [launch_step]

/-- Turn-on outcomes in which every attempt fails with a ClientError. -/
def onNetFail : Nat → NetOutcome := fun _ => NetOutcome.clientError

theorem turn_on_failure_restarts_run_witness :
    (["1"].get? 0 = some "1") ∧
    (load_effect bridge0 ["1"] [("pulse", preset0)] 20 200 0 0 rngZero netOk onNetFail).2
        = Except.error RunErr.turnOnFailed ∧
    launch (consRuns (load_effect bridge0 ["1"] [("pulse", preset0)] 20 200 0 0 rngZero
        netOk onNetFail) (fun _ => ([], Except.ok ()))) 2
      = (load_effect bridge0 ["1"] [("pulse", preset0)] 20 200 0 0 rngZero netOk onNetFail).1
          ++ [Event.logged animLogFile "Animation error",
              Event.printed "An error occurred"]
          ++ launch (fun _ => ([], Except.ok ())) 1 :=
  have h := turn_on_failure_restarts_run bridge0 ["1"] [("pulse", preset0)] 20 200 0 0
    rngZero netOk onNetFail 0 "1" rfl (fun _ hr => NetOutcome.noConfusion hr)
    (fun _ => ([], Except.ok ())) 1
  ⟨rfl, h.1, h.2.2.2.2⟩

/-- The two configured lights of the specification's example run. -/
def lights2 : List String := ["1", "2"]

/-- A network in which the first light's push of the first tick raises a
ClientError and every other interaction succeeds. -/
def netFail00 : Nat → Nat → NetOutcome := fun t i =>
  if t = 0 ∧ i = 0 then NetOutcome.clientError else NetOutcome.ok resp0

/-- Claim C1, evaluated at the failing input: two lights, duration three
ticks, and one push failure for the first light of the first tick. The
exception raised inside the set_light_color coroutine surfaces at the
tick's asyncio.gather, outside the per-light try/except, so the run
aborts: the result is an error, no tick completes (zero sleeps), the
second light's push of the same tick was still issued by the gather, and
nothing is ever written to the animation error log ("Failed to update
light" is never reached). -/
theorem push_failure_aborts_run :
    (load_effect bridge0 lights2 [("pulse", preset0)] 3 3 0 0 rngZero netFail00 onNetOk).2
        = Except.error RunErr.pushFailed ∧
    sleptCount
        (load_effect bridge0 lights2 [("pulse", preset0)] 3 3 0 0 rngZero netFail00 onNetOk).1
        = 0 ∧
    Event.putSent (get_url bridge0 "2")
        (colorBody ((0 : Int) : ℚ) ((100 : Int) : ℚ) ((200 : Int) : ℚ))
      ∈ (load_effect bridge0 lights2 [("pulse", preset0)] 3 3 0 0 rngZero netFail00 onNetOk).1 ∧
    (load_effect bridge0 lights2 [("pulse", preset0)] 3 3 0 0 rngZero netFail00 onNetOk).1.countP
        (fun e => match e with
          | Event.logged f _ => f == animLogFile
          | _ => false) = 0 := by
  refine ⟨rfl, ?_, ?_, ?_⟩ <;> decide
